import Mathlib

/-!
Verification of the sprite grid addressing model and sheet validator of the
gfcx tool repository. The Python sources under `tools/` are shallowly
embedded: pure arithmetic becomes Lean functions on `Nat`, the validator's
mutable error/warning lists become explicit state passing, and the batch
normalizer's exception flow becomes an `Except` computation.
-/

namespace IconCalculator

/-- Result record of `calculate_regular_icon` (icon_calculator.py, lines 44-55).
The dictionary keys become fields; the asset id is the string the Python
dict lookup with default `Unknown` produces. -/
structure RegularIconInfo where
  column : Nat
  row : Nat
  sheet_index : Nat
  sheet_asset_id : String
  x_normal : Nat
  x_shiny : Nat
  y : Nat
  adjusted_column : Nat
  adjusted_row : Nat
deriving DecidableEq, Repr

/-- The static sheet lookup table `sprite_sheets` (icon_calculator.py, lines 35-42),
as a partial map from sheet index to asset id. -/
def sprite_sheets (i : Nat) : Option String :=
  match i with
  | 1 => some "17134745575"
  | 2 => some "17134749969"
  | 3 => some "17134753859"
  | 4 => some "17134757872"
  | 5 => some "17134761227"
  | 6 => some "0"
  | _ => none

/-- Lines 14-28 of icon_calculator.py: the sequential mutation of
`image_index`, `adjusted_column`, `adjusted_row` is written in SSA form.
Returns (image_index, adjusted_column, adjusted_row). -/
def regular_sheet_address (column row : Nat) : Nat × Nat × Nat :=
  -- image_index = 1; adjusted_column = column; adjusted_row = row
  -- if column > 10: image_index += 1; adjusted_column = column - 11
  let image_index2 := if column > 10 then 1 + 1 else 1
  let adjusted_column2 := if column > 10 then column - 11 else column
  -- if row > 24: image_index += 2; adjusted_row = row - 25
  let image_index3 := if row > 24 then image_index2 + 2 else image_index2
  let adjusted_row2 := if row > 24 then row - 25 else row
  -- if adjusted_row > 32: image_index += 2; adjusted_row = adjusted_row - 33
  let image_index4 := if adjusted_row2 > 32 then image_index3 + 2 else image_index3
  let adjusted_row3 := if adjusted_row2 > 32 then adjusted_row2 - 33 else adjusted_row2
  (image_index4, adjusted_column2, adjusted_row3)

/-- `calculate_regular_icon` (icon_calculator.py, lines 8-55). -/
def calculate_regular_icon (icon_number : Nat) : RegularIconInfo :=
  let column := icon_number % 21
  let row := icon_number / 21
  let a := regular_sheet_address column row
  { column := column
    row := row
    sheet_index := a.1
    sheet_asset_id := (sprite_sheets a.1).getD "Unknown"
    x_normal := column * 80
    x_shiny := column * 80 + 40
    y := row * 30
    adjusted_column := a.2.1
    adjusted_row := a.2.2 }

/-- Result record of `calculate_egg_icon` (icon_calculator.py, lines 71-80).
The constant asset id and sprite size fields are omitted as constants. -/
structure EggIconInfo where
  egg_index : Nat
  column : Nat
  row : Nat
  x : Nat
  y : Nat
deriving DecidableEq, Repr

/-- `calculate_egg_icon` (icon_calculator.py, lines 57-69). -/
def calculate_egg_icon (icon_number : Nat) : EggIconInfo :=
  let egg_index := if icon_number > 1872 then icon_number - 1442 else icon_number - 1451
  let column := egg_index % 18
  let row := egg_index / 18
  { egg_index := egg_index
    column := column
    row := row
    x := column * 30
    y := row * 32 }

/-- The ordered sheet-address rule exactly as the spec words it (spec.md §4.1,
steps 1-4), for comparison against the code's `regular_sheet_address`:
sheet starts at 1; if column > 10 the sheet advances by 1 and the column is
reduced by 11; if the original row > 24 the sheet advances by 2 and the row is
reduced by 25; if the adjusted row, re-evaluated after the previous step,
exceeds 32 the sheet advances by 2 more and the adjusted row drops by 33. -/
def sheet_address_spec (column row : Nat) : Nat × Nat × Nat :=
  let sheet1 := 1
  let sheet2 := if column > 10 then sheet1 + 1 else sheet1
  let adj_col := if column > 10 then column - 11 else column
  let sheet3 := if row > 24 then sheet2 + 2 else sheet2
  let adj_row1 := if row > 24 then row - 25 else row
  let sheet4 := if adj_row1 > 32 then sheet3 + 2 else sheet3
  let adj_row2 := if adj_row1 > 32 then adj_row1 - 33 else adj_row1
  (sheet4, adj_col, adj_row2)

end IconCalculator

namespace IconCalculator

/-- The egg_index field of `calculate_egg_icon` unfolded (icon_calculator.py,
lines 60-63). -/
lemma calculate_egg_icon_egg_index (n : Nat) :
    (calculate_egg_icon n).egg_index = if n > 1872 then n - 1442 else n - 1451 := rfl

/-- The sheet_index field of `calculate_regular_icon` unfolded to the
sheet-address computation on (column, row). -/
lemma calculate_regular_icon_sheet_index (n : Nat) :
    (calculate_regular_icon n).sheet_index = (regular_sheet_address (n % 21) (n / 21)).1 := rfl

/-- Crossing the column threshold: at equal row, column 11 selects a sheet
exactly one past the sheet selected by column 10 (icon_calculator.py,
lines 18-20: only the `column > 10` branch differs, contributing +1). -/
lemma regular_sheet_address_col11 (row : Nat) :
    (regular_sheet_address 11 row).1 = (regular_sheet_address 10 row).1 + 1 := by
  simp only [regular_sheet_address]
  split_ifs <;> omega

end IconCalculator

namespace IconCalculator

/-- C1: for every icon index in [0, 1450], regular-icon addressing computes
column = index mod 21 and row = index div 21, and its sheet index, adjusted
column and adjusted row agree with the spec's ordered rule (start at sheet 1;
column > 10 bumps the sheet by 1 and subtracts 11; original row > 24 bumps
the sheet by 2 and subtracts 25; adjusted row > 32, re-evaluated after the
previous step, bumps the sheet by 2 more and subtracts 33). -/
theorem regular_icon_follows_spec_rule (n : Nat) (h : n ≤ 1450) :
    (calculate_regular_icon n).column = n % 21 ∧
    (calculate_regular_icon n).row = n / 21 ∧
    ((calculate_regular_icon n).sheet_index,
     (calculate_regular_icon n).adjusted_column,
     (calculate_regular_icon n).adjusted_row) =
      sheet_address_spec (n % 21) (n / 21) := by
  refine ⟨rfl, rfl, ?_⟩
  simp only [calculate_regular_icon, regular_sheet_address, sheet_address_spec]

/-- Witness for regular_icon_follows_spec_rule at n = 1450. -/
theorem regular_icon_follows_spec_rule_witness :
    (1450 ≤ 1450) ∧
    ((calculate_regular_icon 1450).column = 1450 % 21 ∧
     (calculate_regular_icon 1450).row = 1450 / 21 ∧
     ((calculate_regular_icon 1450).sheet_index,
      (calculate_regular_icon 1450).adjusted_column,
      (calculate_regular_icon 1450).adjusted_row) =
       sheet_address_spec (1450 % 21) (1450 / 21)) :=
  ⟨by decide, regular_icon_follows_spec_rule 1450 (by decide)⟩

/-- C2: for every icon index ≥ 1451, egg-icon addressing computes
egg_local_index = index - 1442 when index > 1872 and index - 1451 otherwise,
then column = egg_local_index mod 18, row = egg_local_index div 18,
x = column * 30, y = row * 32; index 1451 yields column 0, row 0, x 0, y 0,
and index 1873 yields egg_local_index 431, column 17, row 23. -/
theorem egg_icon_addressing (n : Nat) (h : 1451 ≤ n) :
    ((calculate_egg_icon n).egg_index = if n > 1872 then n - 1442 else n - 1451) ∧
    (calculate_egg_icon n).column = (calculate_egg_icon n).egg_index % 18 ∧
    (calculate_egg_icon n).row = (calculate_egg_icon n).egg_index / 18 ∧
    (calculate_egg_icon n).x = (calculate_egg_icon n).column * 30 ∧
    (calculate_egg_icon n).y = (calculate_egg_icon n).row * 32 ∧
    calculate_egg_icon 1451 =
      { egg_index := 0, column := 0, row := 0, x := 0, y := 0 } ∧
    (calculate_egg_icon 1873).egg_index = 431 ∧
    (calculate_egg_icon 1873).column = 17 ∧
    (calculate_egg_icon 1873).row = 23 :=
  ⟨rfl, rfl, rfl, rfl, rfl, by decide, by decide, by decide, by decide⟩

/-- Witness for egg_icon_addressing at n = 1451. -/
theorem egg_icon_addressing_witness :
    (1451 ≤ 1451) ∧ (calculate_egg_icon 1451).egg_index = 1451 - 1451 :=
  ⟨by decide, by
    have h := egg_icon_addressing 1451 (by decide)
    simpa using h.1⟩

/-- C4: for every icon index in [0, 1450], the sheet index produced by
regular-icon addressing lies in the set {1, 2, 3, 4, 5, 6}. -/
theorem regular_sheet_index_mem_range (n : Nat) (h : n ≤ 1450) :
    (calculate_regular_icon n).sheet_index ∈ ({1, 2, 3, 4, 5, 6} : Finset Nat) := by
  rw [calculate_regular_icon_sheet_index]
  simp only [regular_sheet_address, Finset.mem_insert, Finset.mem_singleton]
  split_ifs <;> omega

/-- Witness for regular_sheet_index_mem_range at n = 1450. -/
theorem regular_sheet_index_mem_range_witness :
    (1450 ≤ 1450) ∧
    (calculate_regular_icon 1450).sheet_index ∈ ({1, 2, 3, 4, 5, 6} : Finset Nat) :=
  ⟨by decide, regular_sheet_index_mem_range 1450 (by decide)⟩

/-- C5 counterexample: for icon index 1450 the code computes
column = 1450 mod 21 = 1, not 16, so the claimed column/mod value is false
(21 * 69 = 1449, so the remainder is 1). -/
theorem regular_icon_1450_column_not_16 :
    ¬ ((calculate_regular_icon 1450).column = 16 ∧ 1450 % 21 = 16) := by decide

/-- C5 amended: for icon index 1450, regular-icon addressing yields
column = 1 and row = 69; that is, 1450 mod 21 = 1 and 1450 div 21 = 69. -/
theorem regular_icon_1450_position :
    (calculate_regular_icon 1450).column = 1 ∧
    (calculate_regular_icon 1450).row = 69 ∧
    1450 % 21 = 1 ∧ 1450 / 21 = 69 := by decide

/-- C6 counterexample: no icon indices a in [1451, 1872] and b > 1872
produce the same egg local index — the two numbering regimes do NOT
overlap (regime one yields 0..421, regime two yields 431 and up). -/
theorem egg_regimes_no_overlap :
    ¬ ∃ a b : Nat, 1451 ≤ a ∧ a ≤ 1872 ∧ 1872 < b ∧
        (calculate_egg_icon a).egg_index = (calculate_egg_icon b).egg_index := by
  rintro ⟨a, b, ha1, ha2, hb, he⟩
  rw [calculate_egg_icon_egg_index, calculate_egg_icon_egg_index] at he
  rw [if_neg (by omega), if_pos (by omega)] at he
  omega

/-- C6 amended: the local-index ranges of the two egg numbering regimes are
disjoint, with a gap: for a in [1451, 1872] the local index is at most 421,
and for b > 1872 it is at least 431, so the two are never equal. -/
theorem egg_regimes_disjoint (a b : Nat)
    (ha1 : 1451 ≤ a) (ha2 : a ≤ 1872) (hb : 1872 < b) :
    (calculate_egg_icon a).egg_index ≤ 421 ∧
    431 ≤ (calculate_egg_icon b).egg_index ∧
    (calculate_egg_icon a).egg_index ≠ (calculate_egg_icon b).egg_index := by
  rw [calculate_egg_icon_egg_index, calculate_egg_icon_egg_index]
  rw [if_neg (by omega), if_pos (by omega)]
  omega

/-- Witness for egg_regimes_disjoint at a = 1451, b = 1873. -/
theorem egg_regimes_disjoint_witness :
    (1451 ≤ 1451) ∧ (1451 ≤ 1872) ∧ (1872 < 1873) ∧
    (calculate_egg_icon 1451).egg_index ≠ (calculate_egg_icon 1873).egg_index :=
  ⟨by decide, by decide, by decide,
   (egg_regimes_disjoint 1451 1873 (by decide) (by decide) (by decide)).2.2⟩

/-- C7: crossing the column threshold increases the sheet by exactly one,
independently of the row: for every row, column 11 selects the sheet one
past column 10 at that row; equivalently, for every pair of indices in
[0, 1450] sharing a row with columns 10 and 11, the second sheet is the
first plus one. -/
theorem column_threshold_increments_sheet :
    (∀ row : Nat,
      (regular_sheet_address 11 row).1 = (regular_sheet_address 10 row).1 + 1) ∧
    ∀ i j : Nat, i ≤ 1450 → j ≤ 1450 → i % 21 = 10 → j % 21 = 11 → i / 21 = j / 21 →
      (calculate_regular_icon j).sheet_index = (calculate_regular_icon i).sheet_index + 1 := by
  refine ⟨regular_sheet_address_col11, ?_⟩
  intro i j hi hj hmi hmj hrow
  rw [calculate_regular_icon_sheet_index, calculate_regular_icon_sheet_index,
    hmi, hmj, ← hrow]
  exact regular_sheet_address_col11 (i / 21)

/-- Witness for column_threshold_increments_sheet at row 5 and at the
index pair (10, 11). -/
theorem column_threshold_increments_sheet_witness :
    ((regular_sheet_address 11 5).1 = (regular_sheet_address 10 5).1 + 1) ∧
    (calculate_regular_icon 11).sheet_index = (calculate_regular_icon 10).sheet_index + 1 :=
  ⟨column_threshold_increments_sheet.1 5,
   column_threshold_increments_sheet.2 10 11 (by decide) (by decide) (by decide)
     (by decide) (by decide)⟩

end IconCalculator

namespace ValidateSheet

/-- An RGBA pixel (r, g, b, a), as PIL getdata yields for RGBA images. -/
abbrev Pixel := Nat × Nat × Nat × Nat

/-- An in-memory image: size, PIL mode string, pixel lookup
(validate_sheet.py works on `self.image`). -/
structure Img where
  width : Nat
  height : Nat
  mode : String
  px : Nat → Nat → Pixel

/-- The sheet_type argument of SpriteSheetValidator. -/
inductive SheetType
  | regular
  | egg
deriving DecidableEq, Repr

/-- An entry of `self.errors`: only check_dimensions appends to it
(validate_sheet.py, lines 47-49, 57-59, 67-69, 75-77). The payload is the
offending dimension reported in the message. -/
inductive StructError
  | widthError (w : Nat)
  | heightError (h : Nat)
deriving DecidableEq, Repr

/-- An entry of `self.warnings` (the message strings are abstracted to
their discriminating content). -/
inductive Warning
  | noAlphaChannel
  | nonRGBAMode (mode : String)
  | manyEmptyCells (count : Nat)
deriving DecidableEq, Repr

/-- The validator's mutable `self.errors` / `self.warnings` lists as state. -/
structure VState where
  errors : List StructError
  warnings : List Warning
deriving DecidableEq, Repr

/-- The errors appended by check_dimensions (validate_sheet.py, lines 39-80):
regular sheets must be 1680 or 880 wide and a multiple of 30 tall; egg
sheets must be 540 wide and a multiple of 32 tall. Width is checked first. -/
def check_dimensions_errors (t : SheetType) (w h : Nat) : List StructError :=
  match t with
  | SheetType.regular =>
      (if w ≠ 1680 ∧ w ≠ 880 then [StructError.widthError w] else []) ++
      (if h % 30 ≠ 0 then [StructError.heightError h] else [])
  | SheetType.egg =>
      (if w ≠ 540 then [StructError.widthError w] else []) ++
      (if h % 32 ≠ 0 then [StructError.heightError h] else [])

/-- check_dimensions (validate_sheet.py, lines 39-80) as a state update. -/
def check_dimensions (t : SheetType) (img : Img) (s : VState) : VState :=
  { s with errors := s.errors ++ check_dimensions_errors t img.width img.height }

/-- check_transparency (validate_sheet.py, lines 82-89): warns when the mode
is none of RGBA, LA, PA. -/
def check_transparency (img : Img) (s : VState) : VState :=
  if img.mode ≠ "RGBA" ∧ img.mode ≠ "LA" ∧ img.mode ≠ "PA" then
    { s with warnings := s.warnings ++ [Warning.noAlphaChannel] }
  else s

/-- check_mode (validate_sheet.py, lines 91-98): warns when the mode is not
RGBA. -/
def check_mode (img : Img) (s : VState) : VState :=
  if img.mode ≠ "RGBA" then
    { s with warnings := s.warnings ++ [Warning.nonRGBAMode img.mode] }
  else s

/-- A cropped cell: image.crop keeps the mode and yields the boxed pixels. -/
structure Sprite where
  mode : String
  pixels : List Pixel
deriving DecidableEq, Repr

/-- image.crop((x, y, x+w, y+h)) followed by getdata: row-major pixels of
the box (validate_sheet.py, lines 169-174). -/
def crop (img : Img) (x y w h : Nat) : Sprite :=
  { mode := img.mode
    pixels :=
      (List.range h).flatMap fun dy =>
        (List.range w).map fun dx => img.px (x + dx) (y + dy) }

/-- The body of _is_sprite_empty (validate_sheet.py, lines 172-185) on a
cropped sprite: in RGBA mode, empty iff every pixel has alpha 0 or no pixel
has positive alpha; any other mode falls through to False. The 4th
component of a pixel is its alpha. -/
def is_sprite_empty_core (s : Sprite) : Bool :=
  if s.mode = "RGBA" then
    let pixels := s.pixels
    let all_transparent := pixels.all fun p => p.2.2.2 == 0
    if all_transparent then true
    else
      let non_transparent := pixels.filter fun p => p.2.2.2 > 0
      if non_transparent.length = 0 then true else false
  else false

/-- _is_sprite_empty (validate_sheet.py, lines 165-188) without the
try/except (no modelled operation raises): crop then classify. -/
def is_sprite_empty (img : Img) (x y w h : Nat) : Bool :=
  is_sprite_empty_core (crop img x y w h)

/-- The try/except wrapper of _is_sprite_empty (lines 167 and 187-188): any
exception while cropping or scanning yields False. -/
def is_sprite_empty_guarded (r : Except Unit Sprite) : Bool :=
  match r with
  | Except.error _ => false
  | Except.ok s => is_sprite_empty_core s

/-- The empty-cell list built by check_sprites for egg sheets
(validate_sheet.py, lines 151-158), as (row, col) cell coordinates. -/
def egg_empty_cells (img : Img) : List (Nat × Nat) :=
  let columns := img.width / 30
  let rows := img.height / 32
  (List.range rows).flatMap fun row =>
    (List.range columns).filterMap fun col =>
      if is_sprite_empty img (col * 30) (row * 32) 30 32 then some (row, col) else none

/-- The empty-cell list built by check_sprites for regular sheets
(validate_sheet.py, lines 112-128): for each cell both the normal half at
(col*80, row*30) and the shiny half at (col*80+40, row*30) are scanned at
40x30; entries are the pixel positions of empty halves. -/
def regular_empty_cells (img : Img) : List (Nat × Nat) :=
  let columns := img.width / 80
  let rows := img.height / 30
  (List.range rows).flatMap fun row =>
    (List.range columns).flatMap fun col =>
      (if is_sprite_empty img (col * 80) (row * 30) 40 30 then
        [(col * 80, row * 30)] else []) ++
      (if is_sprite_empty img (col * 80 + 40) (row * 30) 40 30 then
        [(col * 80 + 40, row * 30)] else [])

/-- check_sprites (validate_sheet.py, lines 100-163). The regular branch
only prints its findings, so the state is unchanged; the egg branch warns
when the cells are non-empty and at least half of the grid is empty
(len < columns * rows * 0.5 over integers is 2 * len < columns * rows). -/
def check_sprites (t : SheetType) (img : Img) (s : VState) : VState :=
  match t with
  | SheetType.regular => s
  | SheetType.egg =>
      let cells := egg_empty_cells img
      let columns := img.width / 30
      let rows := img.height / 32
      if cells ≠ [] ∧ cells.length * 2 < columns * rows then s
      else if cells ≠ [] then
        { s with warnings := s.warnings ++ [Warning.manyEmptyCells cells.length] }
      else s

/-- validate (validate_sheet.py, lines 24-37): run the four checks in order
on empty error/warning lists and return the final state together with the
pass/fail boolean `len(self.errors) == 0`. -/
def validate (t : SheetType) (img : Img) : VState × Bool :=
  let s0 : VState := { errors := [], warnings := [] }
  let s1 := check_dimensions t img s0
  let s2 := check_transparency img s1
  let s3 := check_mode img s2
  let s4 := check_sprites t img s3
  (s4, s4.errors.length == 0)

/-- check_transparency never touches the errors list. -/
lemma errors_check_transparency (img : Img) (s : VState) :
    (check_transparency img s).errors = s.errors := by
  unfold check_transparency
  split <;> rfl

/-- check_mode never touches the errors list. -/
lemma errors_check_mode (img : Img) (s : VState) :
    (check_mode img s).errors = s.errors := by
  unfold check_mode
  split <;> rfl

/-- check_sprites never touches the errors list. -/
lemma errors_check_sprites (t : SheetType) (img : Img) (s : VState) :
    (check_sprites t img s).errors = s.errors := by
  unfold check_sprites
  cases t
  · rfl
  · dsimp only
    split
    · rfl
    · split <;> rfl

/-- The errors of a full validation are exactly the check_dimensions
errors: the three later checks only add warnings. -/
lemma validate_errors (t : SheetType) (img : Img) :
    (validate t img).1.errors = check_dimensions_errors t img.width img.height := by
  unfold validate
  rw [errors_check_sprites, errors_check_mode, errors_check_transparency]
  rfl

/-- The pass/fail boolean compares the error count to zero. -/
lemma validate_snd (t : SheetType) (img : Img) :
    (validate t img).2 = ((validate t img).1.errors.length == 0) := rfl

/-- A w x h image, mode RGBA, every pixel fully transparent black. -/
def blank_img (w h : Nat) : Img :=
  { width := w, height := h, mode := "RGBA", px := fun _ _ => (0, 0, 0, 0) }

/-- A w x h image, mode RGBA, every pixel fully opaque black. -/
def opaque_img (w h : Nat) : Img :=
  { width := w, height := h, mode := "RGBA", px := fun _ _ => (0, 0, 0, 255) }

/-- A w x h image, mode RGB (no alpha channel), every pixel opaque black. -/
def rgb_img (w h : Nat) : Img :=
  { width := w, height := h, mode := "RGB", px := fun _ _ => (0, 0, 0, 255) }

/-- A non-RGBA crop falls through the mode test of _is_sprite_empty and is
classified non-empty, whatever its pixels. -/
lemma is_sprite_empty_of_not_rgba (img : Img) (hm : img.mode ≠ "RGBA") :
    ∀ x y w h, is_sprite_empty img x y w h = false := by
  intro x y w h
  simp [is_sprite_empty, is_sprite_empty_core, crop, hm]

/-- C3: for a regular sheet, the structural error list holds a width error
exactly when the width is neither 1680 nor 880, a height error exactly when
the height is not a multiple of 30, and the validator passes exactly when
that list is empty; a 1680x750 image yields zero structural errors and a
1681x750 image exactly one (the width error). -/
theorem regular_validation_errors (img : Img) :
    ((validate SheetType.regular img).1.errors =
      (if img.width ≠ 1680 ∧ img.width ≠ 880 then [StructError.widthError img.width]
       else []) ++
      (if img.height % 30 ≠ 0 then [StructError.heightError img.height] else [])) ∧
    ((validate SheetType.regular img).2 = true ↔
      (validate SheetType.regular img).1.errors = []) ∧
    (validate SheetType.regular (blank_img 1680 750)).1.errors = [] ∧
    (validate SheetType.regular (blank_img 1680 750)).2 = true ∧
    (validate SheetType.regular (blank_img 1681 750)).1.errors =
      [StructError.widthError 1681] ∧
    (validate SheetType.regular (blank_img 1681 750)).2 = false := by
  refine ⟨validate_errors _ _, ?_, by decide, by decide, by decide, by decide⟩
  rw [validate_snd]
  simp [List.length_eq_zero]

/-- C8: a cell whose pixels all have alpha 0 is classified empty and a
nonempty cell whose pixels are all fully opaque is classified non-empty
(on an RGBA image), and the pass/fail boolean depends only on the image
dimensions, never on pixel content: two images of equal width and height
validate to the same pass/fail, so adding or removing empty cells cannot
flip the result. -/
theorem emptiness_never_flips_pass :
    (∀ (img : Img) (x y w h : Nat), img.mode = "RGBA" →
      (∀ p ∈ (crop img x y w h).pixels, p.2.2.2 = 0) →
      is_sprite_empty img x y w h = true) ∧
    (∀ (img : Img) (x y w h : Nat), img.mode = "RGBA" →
      (crop img x y w h).pixels ≠ [] →
      (∀ p ∈ (crop img x y w h).pixels, p.2.2.2 = 255) →
      is_sprite_empty img x y w h = false) ∧
    (∀ (t : SheetType) (img1 img2 : Img), img1.width = img2.width →
      img1.height = img2.height → (validate t img1).2 = (validate t img2).2) := by
  refine ⟨?_, ?_, ?_⟩
  · intro img x y w h hm hall
    have hmode : (crop img x y w h).mode = "RGBA" := hm
    have hall2 : ((crop img x y w h).pixels.all fun p => p.2.2.2 == 0) = true := by
      rw [List.all_eq_true]
      intro p hp
      simpa using hall p hp
    simp [is_sprite_empty, is_sprite_empty_core, hmode, hall2]
  · intro img x y w h hm hne hall
    have hmode : (crop img x y w h).mode = "RGBA" := hm
    have hnotall : ((crop img x y w h).pixels.all fun p => p.2.2.2 == 0) = false := by
      obtain ⟨p, hp⟩ := List.exists_mem_of_ne_nil _ hne
      rw [List.all_eq_false]
      exact ⟨p, hp, by simp [hall p hp]⟩
    have hfilter :
        ((crop img x y w h).pixels.filter fun p => p.2.2.2 > 0).length ≠ 0 := by
      intro h0
      rw [List.length_eq_zero, List.filter_eq_nil_iff] at h0
      obtain ⟨p, hp⟩ := List.exists_mem_of_ne_nil _ hne
      have hcon := h0 p hp
      rw [hall p hp] at hcon
      simp at hcon
    simp [is_sprite_empty, is_sprite_empty_core, hmode, hnotall, hfilter]
  · intro t img1 img2 hw hh
    rw [validate_snd, validate_snd, validate_errors, validate_errors, hw, hh]

/-- Witness for emptiness_never_flips_pass: an all-transparent 2x2 cell is
empty, an all-opaque 2x2 cell is not, and a blank and an opaque 1680x750
sheet validate to the same pass/fail. -/
theorem emptiness_never_flips_pass_witness :
    is_sprite_empty (blank_img 2 2) 0 0 2 2 = true ∧
    is_sprite_empty (opaque_img 2 2) 0 0 2 2 = false ∧
    (validate SheetType.regular (blank_img 1680 750)).2 =
      (validate SheetType.regular (opaque_img 1680 750)).2 :=
  ⟨emptiness_never_flips_pass.1 (blank_img 2 2) 0 0 2 2 rfl (by decide),
   emptiness_never_flips_pass.2.1 (opaque_img 2 2) 0 0 2 2 rfl (by decide) (by decide),
   emptiness_never_flips_pass.2.2 SheetType.regular _ _ rfl rfl⟩

/-- C10: the guarded emptiness test yields False on any exception, and on an
image whose mode is not RGBA every cell is classified non-empty, so neither
the egg nor the regular empty-cell scan ever reports an empty cell for a
sheet without an RGBA alpha channel. -/
theorem non_rgba_never_reported_empty :
    (∀ e : Unit, is_sprite_empty_guarded (Except.error e) = false) ∧
    ∀ (img : Img), img.mode ≠ "RGBA" →
      (∀ x y w h, is_sprite_empty img x y w h = false) ∧
      egg_empty_cells img = [] ∧ regular_empty_cells img = [] := by
  refine ⟨fun e => rfl, ?_⟩
  intro img hm
  refine ⟨is_sprite_empty_of_not_rgba img hm, ?_, ?_⟩
  · simp [egg_empty_cells, is_sprite_empty_of_not_rgba img hm]
  · simp [regular_empty_cells, is_sprite_empty_of_not_rgba img hm]

/-- Witness for non_rgba_never_reported_empty on a 60x64 RGB image. -/
theorem non_rgba_never_reported_empty_witness :
    ((rgb_img 60 64).mode ≠ "RGBA") ∧
    is_sprite_empty (rgb_img 60 64) 0 0 30 32 = false ∧
    egg_empty_cells (rgb_img 60 64) = [] ∧
    regular_empty_cells (rgb_img 60 64) = [] :=
  ⟨by decide,
   (non_rgba_never_reported_empty.2 (rgb_img 60 64) (by decide)).1 0 0 30 32,
   (non_rgba_never_reported_empty.2 (rgb_img 60 64) (by decide)).2.1,
   (non_rgba_never_reported_empty.2 (rgb_img 60 64) (by decide)).2.2⟩

end ValidateSheet

namespace PrepareCustomIcon

/-- Whether one underlying operation of a file's preparation runs normally
or raises an exception. -/
inductive StageOutcome
  | ok
  | raises
deriving DecidableEq, Repr

/-- The control-flow-relevant behaviour of one file fed to prepare_icon
(prepare_custom_icon.py, lines 36-102): whether the file exists (line 42),
and whether each stage raises. `load` is Image.open plus copy inside the
try of lines 47-52; `checks` are the four unguarded check calls of lines
55-58; `fixes` is the unguarded _apply_fixes call of line 63; `save` is
img.save inside the try of lines 75-97. -/
structure FileJob where
  file_exists : Bool
  load : StageOutcome
  checks : StageOutcome
  fixes : StageOutcome
  save : StageOutcome
deriving DecidableEq, Repr

/-- prepare_icon (prepare_custom_icon.py, lines 36-102). `Except.error`
means an exception escapes the call; `Except.ok b` is the returned success
boolean. A missing file and a loading or saving exception are caught and
reported as `return False`; an exception in the check stage (lines 55-58)
or in _apply_fixes (line 63) runs outside any try/except and propagates. -/
def prepare_icon (j : FileJob) : Except Unit Bool :=
  if ¬ j.file_exists then Except.ok false
  else if j.load = StageOutcome.raises then Except.ok false
  else if j.checks = StageOutcome.raises then Except.error ()
  else if j.fixes = StageOutcome.raises then Except.error ()
  else if j.save = StageOutcome.raises then Except.ok false
  else Except.ok true

/-- The per-item outcome recorded when no stage exception escapes: False
for a missing file or a caught load/save failure, True otherwise. -/
def prepare_icon_outcome (j : FileJob) : Bool :=
  if ¬ j.file_exists then false
  else if j.load = StageOutcome.raises then false
  else if j.save = StageOutcome.raises then false
  else true

/-- The loop of batch_prepare (prepare_custom_icon.py, lines 491-524): each
file's prepare_icon call stands bare in the for body with no try/except, so
an escaping exception aborts the whole batch, while a False return is
recorded and the loop continues. -/
def batch_prepare : List FileJob → Except Unit (List Bool)
  | [] => Except.ok []
  | j :: rest =>
    match prepare_icon j with
    | Except.error e => Except.error e
    | Except.ok r =>
      match batch_prepare rest with
      | Except.error e => Except.error e
      | Except.ok rs => Except.ok (r :: rs)

/-- A file whose check stage raises (for instance a caller config with
target_height = 0 makes _check_dimensions divide by zero). -/
def raisingJob : FileJob :=
  { file_exists := true, load := StageOutcome.ok, checks := StageOutcome.raises,
    fixes := StageOutcome.ok, save := StageOutcome.ok }

/-- A file whose whole preparation succeeds. -/
def okJob : FileJob :=
  { file_exists := true, load := StageOutcome.ok, checks := StageOutcome.ok,
    fixes := StageOutcome.ok, save := StageOutcome.ok }

/-- A file whose image loading raises (caught: prepare_icon returns False). -/
def loadFailJob : FileJob :=
  { file_exists := true, load := StageOutcome.raises, checks := StageOutcome.ok,
    fixes := StageOutcome.ok, save := StageOutcome.ok }

/-- When neither the check stage nor the fix stage raises, prepare_icon
returns its boolean outcome and no exception escapes. -/
lemma prepare_icon_eq_ok (j : FileJob)
    (hc : j.checks ≠ StageOutcome.raises) (hf : j.fixes ≠ StageOutcome.raises) :
    prepare_icon j = Except.ok (prepare_icon_outcome j) := by
  unfold prepare_icon prepare_icon_outcome
  split_ifs <;> simp_all

/-- C9 counterexample: a batch of two files whose first file raises during
the check stage aborts with an escaping exception — no per-item outcome
list is produced and the second file is never reached, although its lone
preparation would succeed. -/
theorem batch_aborts_on_stage_exception :
    batch_prepare [raisingJob, okJob] = Except.error () ∧
    (¬ ∃ rs : List Bool, batch_prepare [raisingJob, okJob] = Except.ok rs) ∧
    batch_prepare [okJob] = Except.ok [true] := by
  refine ⟨rfl, ?_, rfl⟩
  rintro ⟨rs, hrs⟩
  simp [batch_prepare, raisingJob, prepare_icon] at hrs

/-- C9 amended: failures in the existence check, image loading, or saving
of one file are caught inside prepare_icon, recorded as that file's False
outcome, and the batch continues to the next file; only for batches in
which no file's check or fix stage raises does every file receive a
per-item outcome with no exception escaping. -/
theorem batch_continues_past_caught_failures (jobs : List FileJob)
    (h : ∀ j ∈ jobs, j.checks ≠ StageOutcome.raises ∧ j.fixes ≠ StageOutcome.raises) :
    batch_prepare jobs = Except.ok (jobs.map prepare_icon_outcome) := by
  induction jobs with
  | nil => rfl
  | cons j rest ih =>
    have hj := h j (List.mem_cons_self j rest)
    have hrest := ih fun x hx => h x (List.mem_cons_of_mem j hx)
    simp [batch_prepare, prepare_icon_eq_ok j hj.1 hj.2, hrest]

/-- Witness for batch_continues_past_caught_failures: a batch of a
succeeding file, a file whose load raises (caught), and a missing file
yields the outcome list [true, false, false]. -/
theorem batch_continues_past_caught_failures_witness :
    batch_prepare [okJob, loadFailJob,
        { file_exists := false, load := StageOutcome.ok, checks := StageOutcome.ok,
          fixes := StageOutcome.ok, save := StageOutcome.ok }] =
      Except.ok [true, false, false] := by
  have h := batch_continues_past_caught_failures
    [okJob, loadFailJob,
      { file_exists := false, load := StageOutcome.ok, checks := StageOutcome.ok,
        fixes := StageOutcome.ok, save := StageOutcome.ok }]
    (by decide)
  simpa using h

end PrepareCustomIcon
